import Mathlib

/-!
Shallow embedding of the assertion/watcher subsystem of the repository
(`phone_agent/assertion/`): `ocr_engine.py`, `image_diff.py`,
`assertion_watcher.py`, `runner.py`.

Modelling conventions:
* An image (a base64 screenshot blob in the Python code) is modelled by the
  inductive `Image`: either an undecodable blob (`Image.invalid`, on which
  `base64.b64decode` / `PIL.Image.open` in `calculate_diff` raises) or a
  decoded flat array of pixel-channel values (`Image.valid`, each value the
  rational counterpart of a 0–255 float sample).
* Floats are modelled by `ℚ`; Python exceptions by `Except String`; `None`
  by `Option`.
* The watcher's `screenshot_func` is not stored in the state: instead the
  sequence of outcomes it would produce on successive calls is passed to
  `AssertionWatcher.watch` as a list of `Except String Image` values
  (`Except.error` models the capture call raising).  The list being finite
  bounds the number of loop iterations the model can observe.
* Wall-clock time is modelled logically: at the start of iteration `k` the
  elapsed time is taken to be `k * poll_interval` (capture and evaluation
  latencies are ignored), matching the loop's `time.time() - start_time <
  timeout` test.
* `print` calls and log output are side effects with no bearing on the
  returned values and are not modelled.
-/

deriving instance DecidableEq for Except

/-- Absolute value on `ℚ` (`np.abs`), written with an explicit comparison so
that it evaluates by kernel reduction. -/
def ratAbs (q : ℚ) : ℚ := if q < 0 then -q else q

/-- Python's substring test `needle in hay`, on the character lists of the
two strings. -/
def pyIn (needle hay : String) : Bool :=
  (List.range (hay.data.length + 1)).any fun i => needle.data.isPrefixOf (hay.data.drop i)

/-- A screenshot blob: either undecodable (decoding raises in the Python
code) or a decoded flat array of pixel-channel sample values. -/
inductive Image where
  | invalid (blob : String) : Image
  | valid (pixels : List ℚ) : Image
deriving DecidableEq

/-- Decoding an image: `none` models the `base64.b64decode` /
`PIL.Image.open` calls raising inside `calculate_diff`'s `try` block. -/
def Image.decode : Image → Option (List ℚ)
  | Image.invalid _ => none
  | Image.valid pixels => some pixels

/-- Default image used for the (always in-bounds) list indexing of
`is_stable`. -/
def defaultImage : Image := Image.valid []

/-- The `OCREngine` class of `ocr_engine.py`.  The `extract_text` field
models the (overridable) `extract_text` method; an injected engine may carry
any extraction function. -/
structure OCREngine where
  device_id : Option String
  extract_text : Image → List String

/-- The engine built by `OCREngine()` with no arguments: `device_id` is
`None` and the stub `extract_text` body is `return []`. -/
def OCREngine.default : OCREngine :=
  { device_id := none, extract_text := fun _ => [] }

/-- `OCREngine.contains_text`: some extracted line has the target as a
substring (`any(target_text in text for text in texts)`). -/
def OCREngine.contains_text (e : OCREngine) (image : Image) (target_text : String) : Bool :=
  (e.extract_text image).any fun text => pyIn target_text text

/-- `OCREngine.not_contains_text`: `not self.contains_text(...)`. -/
def OCREngine.not_contains_text (e : OCREngine) (image : Image) (target_text : String) : Bool :=
  !(e.contains_text image target_text)

/-- The `ImageDiffChecker` class of `image_diff.py` (its only state is the
change threshold, default 0.15). -/
structure ImageDiffChecker where
  threshold : ℚ

/-- The checker built by `ImageDiffChecker()` with no arguments. -/
def ImageDiffChecker.default : ImageDiffChecker := { threshold := 3 / 20 }

/-- Resampling of a decoded pixel array to a target length, modelling the
external `PIL` `img2.resize(img1.size)` call (truncate or zero-pad; the
claims do not depend on the resampling policy, only on the result having the
target geometry). -/
def resizeTo (pixels : List ℚ) (n : Nat) : List ℚ :=
  pixels.take n ++ List.replicate (n - pixels.length) 0

/-- `ImageDiffChecker.calculate_diff`: decode both images (any exception in
the `try` block — modelled as a `none` decode — yields `0.0`), resize the
second to the first's geometry when they differ, then return the mean
absolute per-sample difference normalised by 255
(`np.mean(np.abs(arr1 - arr2)) / 255.0`).  The empty-array case (where
`np.mean` is undefined) is mapped to `0`. -/
def ImageDiffChecker.calculate_diff (_c : ImageDiffChecker) (image1 image2 : Image) : ℚ :=
  match image1.decode, image2.decode with
  | some arr1, some arr2 =>
      let arr2' := if arr2.length = arr1.length then arr2 else resizeTo arr2 arr1.length
      if arr1.length = 0 then 0
      else (((arr1.zip arr2').map fun p => ratAbs (p.1 - p.2)).sum) / ((arr1.length : ℚ) * 255)
  | _, _ => 0

/-- `ImageDiffChecker.has_changed`: the diff strictly exceeds the checker's
threshold. -/
def ImageDiffChecker.has_changed (c : ImageDiffChecker) (image1 image2 : Image) : Bool :=
  decide (c.threshold < c.calculate_diff image1 image2)

/-- `ImageDiffChecker.is_stable`: `false` when fewer than `stable_frames`
images are available; otherwise the loop
`for i in range(len - stable_frames + 1, len)` fails as soon as
`calculate_diff(recent[i-1], recent[i])` exceeds `stable_threshold`. -/
def ImageDiffChecker.is_stable (c : ImageDiffChecker) (recent_images : List Image)
    (stable_frames : Nat) (stable_threshold : ℚ) : Bool :=
  if recent_images.length < stable_frames then false
  else
    (List.range' (recent_images.length - stable_frames + 1) (stable_frames - 1)).all fun i =>
      !(decide (stable_threshold <
        c.calculate_diff (recent_images.getD (i - 1) defaultImage)
          (recent_images.getD i defaultImage)))

/-- The `Assertion` dataclass of `assertion_watcher.py`. -/
structure Assertion where
  type : String
  value : String
  timeout : ℚ
deriving DecidableEq

/-- The mutable state of an `AssertionWatcher` instance (the
`screenshot_func` field is replaced by the tick list passed to `watch`;
leading underscores of the private fields are dropped). -/
structure AssertionWatcher where
  ocr_engine : OCREngine
  image_diff_checker : ImageDiffChecker
  poll_interval : ℚ
  stable_frames : Nat
  stable_threshold : ℚ
  running : Bool
  last_screenshot : Option Image
  recent_screenshots : List Image

/-- `AssertionWatcher.__init__`: `ocr_engine or OCREngine()` and
`image_diff_checker or ImageDiffChecker()` default the collaborators; the
running flag starts `False`, the previous frame `None`, the window empty.
The Python defaults for the last three arguments are 0.5, 3 and 0.05. -/
def mkWatcher (ocr_engine : Option OCREngine) (image_diff_checker : Option ImageDiffChecker)
    (poll_interval : ℚ) (stable_frames : Nat) (stable_threshold : ℚ) : AssertionWatcher :=
  { ocr_engine := ocr_engine.getD OCREngine.default
    image_diff_checker := image_diff_checker.getD ImageDiffChecker.default
    poll_interval := poll_interval
    stable_frames := stable_frames
    stable_threshold := stable_threshold
    running := false
    last_screenshot := none
    recent_screenshots := [] }

/-- `AssertionWatcher._is_screen_stable`: insufficient history is unstable,
otherwise delegate to the diff checker. -/
def AssertionWatcher.is_screen_stable (w : AssertionWatcher) : Bool :=
  if w.recent_screenshots.length < w.stable_frames then false
  else w.image_diff_checker.is_stable w.recent_screenshots w.stable_frames w.stable_threshold

/-- `AssertionWatcher.check_assertion`: gated on screen stability, then
dispatch on the assertion kind string; unknown kinds and `image_changed`
with no previous frame yield `False`. -/
def AssertionWatcher.check_assertion (w : AssertionWatcher) (assertion : Assertion)
    (current_screenshot : Image) : Bool :=
  if w.is_screen_stable = false then false
  else if assertion.type = "text_exists" then
    w.ocr_engine.contains_text current_screenshot assertion.value
  else if assertion.type = "text_not_exists" then
    w.ocr_engine.not_contains_text current_screenshot assertion.value
  else if assertion.type = "image_changed" then
    match w.last_screenshot with
    | none => false
    | some last => w.image_diff_checker.has_changed last current_screenshot
  else false

/-- The per-tick `for assertion in assertions` loop of `watch`: the first
assertion (in declared order) whose `check_assertion` is true, if any. -/
def AssertionWatcher.firstHit (w : AssertionWatcher) (assertions : List Assertion)
    (current_screenshot : Image) : Option Assertion :=
  assertions.find? fun a => w.check_assertion a current_screenshot

/-- The window update of `watch`: `append` the new frame, then `pop(0)` (one
element, the oldest) when the length exceeds `stable_frames`. -/
def pushFrame (recent : List Image) (stable_frames : Nat) (img : Image) : List Image :=
  let appended := recent ++ [img]
  if stable_frames < appended.length then appended.drop 1 else appended

/-- The message built on a hit:
`f"断言命中: \x7bassertion.type\x7d = \x7bassertion.value\x7d"`. -/
def hitMessage (a : Assertion) : String :=
  "断言命中: " ++ a.type ++ " = " ++ a.value

/-- The `while` loop of `AssertionWatcher.watch`, one recursive call per
iteration.  `k` counts completed iterations, so the elapsed time at the loop
test is `k * poll_interval`.  An exhausted tick list ends the watch with the
timeout result (the same value the loop test produces on expiry).  A capture
error propagates immediately (there is no `try` in `watch`), leaving the
state — including `running = true` — as it was at that point. -/
def AssertionWatcher.watchLoop (assertions : List Assertion) (timeout : ℚ) :
    AssertionWatcher → Nat → List (Except String Image) →
      Except String (Bool × Option String) × AssertionWatcher
  | w, _, [] => (Except.ok (false, none), { w with running := false })
  | w, k, tick :: rest =>
      if w.running = true ∧ (k : ℚ) * w.poll_interval < timeout then
        match tick with
        | Except.error e => (Except.error e, w)
        | Except.ok current_screenshot =>
            let w1 : AssertionWatcher :=
              { w with recent_screenshots :=
                  pushFrame w.recent_screenshots w.stable_frames current_screenshot }
            match w1.firstHit assertions current_screenshot with
            | some a => (Except.ok (true, some (hitMessage a)), { w1 with running := false })
            | none =>
                AssertionWatcher.watchLoop assertions timeout
                  { w1 with last_screenshot := some current_screenshot } (k + 1) rest
      else (Except.ok (false, none), { w with running := false })

/-- `AssertionWatcher.watch`: set `_running = True`, record the start time,
then run the polling loop. -/
def AssertionWatcher.watch (w : AssertionWatcher) (assertions : List Assertion)
    (timeout : ℚ) (ticks : List (Except String Image)) :
    Except String (Bool × Option String) × AssertionWatcher :=
  AssertionWatcher.watchLoop assertions timeout { w with running := true } 0 ticks

/-- `AssertionWatcher.stop`: clear the running flag. -/
def AssertionWatcher.stop (w : AssertionWatcher) : AssertionWatcher :=
  { w with running := false }

/-- The `AssertionResult` dataclass of `runner.py`.  The wall-clock
`elapsed_time` field is outside the logical time model and is omitted. -/
structure AssertionResult where
  success : Bool
  message : String
  screenshot_path : Option String
deriving DecidableEq

/-- One entry of the assertion wire format consumed by
`run_with_assertion`: a dict with `type`, `value` and an optional
`timeout` key. -/
structure AssertionSpec where
  type : String
  value : String
  timeout : Option ℚ

/-- The normalisation step of `run_with_assertion`:
`timeout=a.get("timeout", timeout)` defaults each assertion's timeout to the
overall timeout. -/
def normalizeAssertions (assertions : List AssertionSpec) (timeout : ℚ) : List Assertion :=
  assertions.map fun a =>
    { type := a.type, value := a.value, timeout := a.timeout.getD timeout }

/-- The state of an `AssertionRunner` instance.  `agent_run` models the
black-box `agent.run` collaborator; `save_screenshot_func` models the optional
failure-artifact collaborator by the path it would return (`none` when not
configured). -/
structure AssertionRunner where
  agent_run : String → Except String String
  save_screenshot_func : Option String
  watcher : AssertionWatcher
  agent_result : Option String
  agent_error : Option String

/-- `AssertionRunner.__init__`: stores the collaborators and builds
`AssertionWatcher(screenshot_func)` with all watcher defaults. -/
def mkRunner (agent_run : String → Except String String)
    (save_screenshot_func : Option String) : AssertionRunner :=
  { agent_run := agent_run
    save_screenshot_func := save_screenshot_func
    watcher := mkWatcher none none (1 / 2) 3 (1 / 20)
    agent_result := none
    agent_error := none }

/-- `AssertionRunner._start_agent_async`: the daemon thread runs
`agent.run(prompt)` and records its result or error exactly once.  Thread
scheduling is not modelled; the eventual captured outcome is recorded here. -/
def AssertionRunner.startAgent (r : AssertionRunner) (prompt : String) : AssertionRunner :=
  match r.agent_run prompt with
  | Except.ok res => { r with agent_result := some res }
  | Except.error e => { r with agent_error := some e }

/-- `AssertionRunner._stop_agent`: stop the watcher; the agent itself has no
cancellation hook and is merely abandoned. -/
def AssertionRunner.stopAgent (r : AssertionRunner) : AssertionRunner :=
  { r with watcher := r.watcher.stop }

/-- `AssertionRunner.run_with_assertion`: normalise the assertion dicts,
start the agent thread, run the watch inside `try`, and on every path stop
the agent and return an `AssertionResult`; the `except` branch converts a
propagated exception into a failed result.  The failure-artifact path is
attached on the timeout and exception paths when the save collaborator is
configured. -/
def AssertionRunner.run_with_assertion (r : AssertionRunner) (prompt : String)
    (assertions : List AssertionSpec) (timeout : ℚ)
    (ticks : List (Except String Image)) : AssertionResult × AssertionRunner :=
  let assertion_objects := normalizeAssertions assertions timeout
  let r1 := r.startAgent prompt
  match r1.watcher.watch assertion_objects timeout ticks with
  | (Except.ok (true, message), w2) =>
      ({ success := true, message := message.getD ("断言通过"), screenshot_path := none },
       AssertionRunner.stopAgent { r1 with watcher := w2 })
  | (Except.ok (false, _), w2) =>
      ({ success := false, message := "断言超时未命中",
         screenshot_path := r1.save_screenshot_func },
       AssertionRunner.stopAgent { r1 with watcher := w2 })
  | (Except.error e, w2) =>
      ({ success := false, message := "断言执行异常: " ++ e,
         screenshot_path := r1.save_screenshot_func },
       AssertionRunner.stopAgent { r1 with watcher := w2 })

section Proofs

/-- Helper: `getD` after `drop` indexes into the original list. -/
theorem getD_drop {α : Type} (l : List α) (n j : Nat) (d : α) :
    (l.drop n).getD j d = l.getD (n + j) d := by
  simp [List.getD_eq_getElem?_getD, List.getElem?_drop]

/-- Helper: pushing one frame never grows the window beyond `stable_frames`
when it was within bounds before. -/
theorem pushFrame_length_le (recent : List Image) (sf : Nat) (img : Image)
    (h : recent.length ≤ sf) : (pushFrame recent sf img).length ≤ sf := by
  simp only [pushFrame]
  split <;> rename_i hc <;>
    simp only [List.length_drop, List.length_append, List.length_cons, List.length_nil]
      at hc ⊢ <;>
    omega

/-- C6: `TextNotExists` is the pointwise boolean negation of `TextExists` on
the same frame, for every OCR engine, image and target value; in particular
an empty OCR extraction satisfies `TextNotExists` for every value. -/
theorem text_not_exists_negates (e : OCREngine) (img : Image) (v : String) :
    e.not_contains_text img v = !(e.contains_text img v)
  ∧ (e.extract_text img = [] → e.not_contains_text img v = true) := by
  refine ⟨rfl, fun h => ?_⟩
  simp [OCREngine.not_contains_text, OCREngine.contains_text, h]

/-- Witness for C6 at a concrete engine, image and value. -/
theorem text_not_exists_negates_witness :
    OCREngine.default.not_contains_text defaultImage ("登录成功") = true :=
  (text_not_exists_negates OCREngine.default defaultImage ("登录成功")).2 rfl

/-- C9: when decoding either input fails, `calculate_diff` returns exactly
`0`; consequently `has_changed` is false (for the checker's nonnegative
threshold) and no nonnegative stability threshold can see the pair as
unstable. -/
theorem calculate_diff_decode_failure (c : ImageDiffChecker) (i1 i2 : Image)
    (h : i1.decode = none ∨ i2.decode = none) :
    c.calculate_diff i1 i2 = 0
  ∧ (0 ≤ c.threshold → c.has_changed i1 i2 = false)
  ∧ (∀ st : ℚ, 0 ≤ st → ¬(st < c.calculate_diff i1 i2)) := by
  have h0 : c.calculate_diff i1 i2 = 0 := by
    cases i1 with
    | invalid b => cases i2 <;> rfl
    | valid p =>
        cases i2 with
        | invalid b => rfl
        | valid q => simp [Image.decode] at h
  refine ⟨h0, fun ht => ?_, fun st hst => ?_⟩
  · simp [ImageDiffChecker.has_changed, h0, not_lt, ht]
  · rw [h0]; exact not_lt.mpr hst


/-- Witness for C9 at a concrete undecodable first input. -/
theorem calculate_diff_decode_failure_witness :
    ImageDiffChecker.default.calculate_diff (Image.invalid ("corrupt")) (Image.valid [0]) = 0
  ∧ ImageDiffChecker.default.has_changed (Image.invalid ("corrupt")) (Image.valid [0]) = false := by
  have h := calculate_diff_decode_failure ImageDiffChecker.default
    (Image.invalid ("corrupt")) (Image.valid [0]) (Or.inl rfl)
  exact ⟨h.1, h.2.1 (by norm_num [ImageDiffChecker.default])⟩

/-- C7: whenever the stability detector reports unstable (which includes
every tick on which the window is not yet full), every assertion — of any
kind — evaluates as unmet, so no tick with an unstable window can produce a
hit. -/
theorem unstable_tick_unmet (w : AssertionWatcher) (a : Assertion) (cur : Image) :
    (w.recent_screenshots.length < w.stable_frames → w.is_screen_stable = false)
  ∧ (w.is_screen_stable = false → w.check_assertion a cur = false)
  ∧ (w.is_screen_stable = false → ∀ assertions, w.firstHit assertions cur = none) := by
  refine ⟨fun h => ?_, fun h => ?_, fun h assertions => ?_⟩
  · simp [AssertionWatcher.is_screen_stable, h]
  · simp [AssertionWatcher.check_assertion, h]
  · exact List.find?_eq_none.mpr fun x _ => by
      simp [AssertionWatcher.check_assertion, h]

/-- Witness for C7 at a concrete watcher whose window is not yet full. -/
theorem unstable_tick_unmet_witness :
    (mkWatcher none none (1 / 2) 3 (1 / 20)).check_assertion
      { type := "text_exists", value := "我的订单", timeout := 10 } defaultImage = false
  ∧ (mkWatcher none none (1 / 2) 3 (1 / 20)).firstHit
      [{ type := "text_exists", value := "我的订单", timeout := 10 }] defaultImage = none :=
  ⟨(unstable_tick_unmet (mkWatcher none none (1 / 2) 3 (1 / 20))
      { type := "text_exists", value := "我的订单", timeout := 10 } defaultImage).2.1 rfl,
   (unstable_tick_unmet (mkWatcher none none (1 / 2) 3 (1 / 20))
      { type := "text_exists", value := "我的订单", timeout := 10 } defaultImage).2.2 rfl _⟩

/-- C10: the default OCR engine (the one `AssertionWatcher.__init__` builds
when none is injected) extracts no text from any image, so `contains_text`
is false and `not_contains_text` is true for every image and target; hence
on a watcher carrying the default engine a `text_exists` assertion never
evaluates true and a `text_not_exists` assertion evaluates true exactly when
the screen is stable (so it hits on the first stable tick). -/
theorem default_ocr_engine_behavior (w : AssertionWatcher) (v : String) (t : ℚ)
    (cur img : Image) (h : w.ocr_engine = OCREngine.default) :
    OCREngine.default.extract_text img = []
  ∧ OCREngine.default.contains_text img v = false
  ∧ OCREngine.default.not_contains_text img v = true
  ∧ (mkWatcher none none (1 / 2) 3 (1 / 20)).ocr_engine = OCREngine.default
  ∧ w.check_assertion { type := "text_exists", value := v, timeout := t } cur = false
  ∧ w.check_assertion { type := "text_not_exists", value := v, timeout := t } cur
      = w.is_screen_stable := by
  refine ⟨rfl, rfl, rfl, rfl, ?_, ?_⟩
  · cases hs : w.is_screen_stable with
    | false => simp [AssertionWatcher.check_assertion, hs]
    | true =>
        simp [AssertionWatcher.check_assertion, hs, h,
          OCREngine.contains_text, OCREngine.default]
  · cases hs : w.is_screen_stable with
    | false => simp [AssertionWatcher.check_assertion, hs]
    | true =>
        simp [AssertionWatcher.check_assertion, hs, h, OCREngine.not_contains_text,
          OCREngine.contains_text, OCREngine.default]

/-- Witness for C10 at a concrete watcher built with the default engine. -/
theorem default_ocr_engine_behavior_witness :
    (mkWatcher none none (1 / 2) 3 (1 / 20)).check_assertion
      { type := "text_exists", value := "支付成功", timeout := 5 } defaultImage = false
  ∧ (mkWatcher none none (1 / 2) 3 (1 / 20)).check_assertion
      { type := "text_not_exists", value := "支付成功", timeout := 5 } defaultImage
      = (mkWatcher none none (1 / 2) 3 (1 / 20)).is_screen_stable :=
  ⟨(default_ocr_engine_behavior (mkWatcher none none (1 / 2) 3 (1 / 20)) "支付成功" 5
      defaultImage defaultImage rfl).2.2.2.2.1,
   (default_ocr_engine_behavior (mkWatcher none none (1 / 2) 3 (1 / 20)) "支付成功" 5
      defaultImage defaultImage rfl).2.2.2.2.2⟩

/-- Helper: `find?` returns the marked element when everything before it
fails the predicate and it satisfies the predicate. -/
theorem firstHit_append (w : AssertionWatcher) (cur : Image) (pre post : List Assertion)
    (a : Assertion) (hpre : ∀ b ∈ pre, w.check_assertion b cur = false)
    (ha : w.check_assertion a cur = true) :
    w.firstHit (pre ++ a :: post) cur = some a := by
  induction pre with
  | nil => simp [AssertionWatcher.firstHit, List.find?_cons_of_pos, ha]
  | cons b bs ih =>
      have hb : w.check_assertion b cur = false := hpre b (List.mem_cons_self b bs)
      simp only [List.cons_append, AssertionWatcher.firstHit] at ih ⊢
      rw [List.find?_cons_of_neg _ (by simp [hb])]
      exact ih fun x hx => hpre x (List.mem_cons_of_mem b hx)

/-- Helper: one unfolding step of `watch` on a successful first capture,
with the per-tick state written in flat form. -/
theorem watch_cons_ok (w : AssertionWatcher) (assertions : List Assertion) (T : ℚ)
    (cur : Image) (rest : List (Except String Image)) (hT : 0 < T) :
    w.watch assertions T (Except.ok cur :: rest) =
      match AssertionWatcher.firstHit
          { w with
            running := true
            recent_screenshots := pushFrame w.recent_screenshots w.stable_frames cur }
          assertions cur with
      | some a =>
          (Except.ok (true, some (hitMessage a)),
           { w with
             running := false
             recent_screenshots := pushFrame w.recent_screenshots w.stable_frames cur })
      | none =>
          AssertionWatcher.watchLoop assertions T
            { w with
              running := true
              recent_screenshots := pushFrame w.recent_screenshots w.stable_frames cur
              last_screenshot := some cur } 1 rest := by
  rw [AssertionWatcher.watch, AssertionWatcher.watchLoop,
    if_pos ⟨rfl, by rw [Nat.cast_zero, zero_mul]; exact hT⟩]

/-- C5: on a tick where some assertion evaluates true, `watch` reports the
first assertion in declared order that evaluates true (every earlier
assertion evaluating false), returning a hit whose message identifies it;
for `[A, B]` both satisfiable the reported match is `A`. -/
theorem watch_reports_first_match (w : AssertionWatcher) (T : ℚ) (cur : Image)
    (rest : List (Except String Image)) (pre post : List Assertion) (a : Assertion)
    (hT : 0 < T)
    (hpre : ∀ b ∈ pre,
      AssertionWatcher.check_assertion
        { w with
          running := true
          recent_screenshots := pushFrame w.recent_screenshots w.stable_frames cur }
        b cur = false)
    (ha : AssertionWatcher.check_assertion
        { w with
          running := true
          recent_screenshots := pushFrame w.recent_screenshots w.stable_frames cur }
        a cur = true) :
    (w.watch (pre ++ a :: post) T (Except.ok cur :: rest)).1
      = Except.ok (true, some (hitMessage a)) := by
  rw [watch_cons_ok w (pre ++ a :: post) T cur rest hT,
    firstHit_append _ _ _ _ _ hpre ha]

/-- Witness for C5: two assertions both satisfiable on the same tick; the
reported match is the first one. -/
theorem watch_reports_first_match_witness :
    AssertionWatcher.check_assertion
      { mkWatcher none none (1 / 2) 3 (1 / 20) with
        running := true
        recent_screenshots :=
          pushFrame [Image.valid [0], Image.valid [0]] 3 (Image.valid [0]) }
      { type := "text_not_exists", value := "乙", timeout := 10 } (Image.valid [0]) = true
  ∧ (AssertionWatcher.watch
        { mkWatcher none none (1 / 2) 3 (1 / 20) with
          recent_screenshots := [Image.valid [0], Image.valid [0]] }
        [{ type := "text_not_exists", value := "甲", timeout := 10 },
         { type := "text_not_exists", value := "乙", timeout := 10 }] 10
        [Except.ok (Image.valid [0])]).1
      = Except.ok (true,
          some (hitMessage { type := "text_not_exists", value := "甲", timeout := 10 })) := by
  constructor
  · with_unfolding_all decide
  · exact watch_reports_first_match
      { mkWatcher none none (1 / 2) 3 (1 / 20) with
        recent_screenshots := [Image.valid [0], Image.valid [0]] }
      10 (Image.valid [0]) [] []
      [{ type := "text_not_exists", value := "乙", timeout := 10 }]
      { type := "text_not_exists", value := "甲", timeout := 10 }
      (by norm_num) (by simp) (by with_unfolding_all decide)

/-- Helper: the watch loop never grows the window beyond the watcher's
`stable_frames` when it was within bounds on entry. -/
theorem watchLoop_window_le (assertions : List Assertion) (T : ℚ)
    (ticks : List (Except String Image)) :
    ∀ (w : AssertionWatcher) (k : Nat),
      w.recent_screenshots.length ≤ w.stable_frames →
      ((AssertionWatcher.watchLoop assertions T w k ticks).2).recent_screenshots.length
        ≤ w.stable_frames := by
  induction ticks with
  | nil => intro w k h; simpa [AssertionWatcher.watchLoop] using h
  | cons tick rest ih =>
      intro w k h
      cases tick with
      | error e =>
          simp only [AssertionWatcher.watchLoop]
          split
          · simpa using h
          · simpa using h
      | ok cur =>
          simp only [AssertionWatcher.watchLoop]
          split
          · cases hf : AssertionWatcher.firstHit
                { w with recent_screenshots :=
                    pushFrame w.recent_screenshots w.stable_frames cur }
                assertions cur with
            | some a =>
                simp only [hf]
                exact pushFrame_length_le _ _ _ h
            | none =>
                simp only [hf]
                exact ih _ (k + 1) (pushFrame_length_le _ _ _ h)
          · simpa using h

/-- C8: the window update keeps the rolling window within `stableFrames`
after any number of pushes (from any in-bounds starting window), evicts
exactly the oldest frame when capacity is exceeded (FIFO), and the watch
loop preserves the bound through an entire run. -/
theorem window_bounded_fifo (sf : Nat) (img : Image) (init pushes : List Image)
    (w : AssertionWatcher) (assertions : List Assertion) (T : ℚ)
    (ticks : List (Except String Image)) :
    (init.length ≤ sf → (pushes.foldl (fun r i => pushFrame r sf i) init).length ≤ sf)
  ∧ (init.length = sf → 0 < sf → pushFrame init sf img = init.drop 1 ++ [img])
  ∧ (w.recent_screenshots.length ≤ w.stable_frames →
      ((w.watch assertions T ticks).2).recent_screenshots.length ≤ w.stable_frames) := by
  refine ⟨?_, ?_, ?_⟩
  · induction pushes generalizing init with
    | nil => intro h; simpa using h
    | cons p ps ih =>
        intro h
        rw [List.foldl_cons]
        exact ih _ (pushFrame_length_le _ _ _ h)
  · intro hlen hpos
    simp only [pushFrame]
    rw [if_pos (by simp only [List.length_append, List.length_cons, List.length_nil]; omega),
      List.drop_append_of_le_length (by omega)]
  · intro h
    exact watchLoop_window_le assertions T ticks { w with running := true } 0 h

/-- Witness for C8 at concrete windows and a concrete watch run. -/
theorem window_bounded_fifo_witness :
    ([Image.valid [1], Image.valid [2], Image.valid [3], Image.valid [4]].foldl
        (fun r i => pushFrame r 3 i) []).length ≤ 3
  ∧ pushFrame [Image.valid [1], Image.valid [2], Image.valid [3]] 3 (Image.valid [4])
      = [Image.valid [1], Image.valid [2], Image.valid [3]].drop 1 ++ [Image.valid [4]]
  ∧ ((AssertionWatcher.watch (mkWatcher none none (1 / 2) 3 (1 / 20)) [] 10
        [Except.ok (Image.valid [0])]).2).recent_screenshots.length ≤ 3 :=
  ⟨(window_bounded_fifo 3 (Image.valid [4]) []
      [Image.valid [1], Image.valid [2], Image.valid [3], Image.valid [4]]
      (mkWatcher none none (1 / 2) 3 (1 / 20)) [] 10 [Except.ok (Image.valid [0])]).1
      (by simp),
   (window_bounded_fifo 3 (Image.valid [4]) [Image.valid [1], Image.valid [2], Image.valid [3]]
      [] (mkWatcher none none (1 / 2) 3 (1 / 20)) [] 10 [Except.ok (Image.valid [0])]).2.1
      (by simp) (by norm_num),
   (window_bounded_fifo 3 (Image.valid [4]) [] []
      (mkWatcher none none (1 / 2) 3 (1 / 20)) [] 10 [Except.ok (Image.valid [0])]).2.2
      (by simp [mkWatcher])⟩

/-- C3: `is_stable` is false for every window shorter than `stable_frames`;
for a window of at least `stable_frames` frames it is true exactly when each
consecutive pair among the trailing `stable_frames` frames has difference
score at most the threshold (one outlier pair above the threshold makes it
false). -/
theorem is_stable_characterization (c : ImageDiffChecker) (recent : List Image)
    (sf : Nat) (th : ℚ) :
    (recent.length < sf → c.is_stable recent sf th = false)
  ∧ (sf ≤ recent.length →
      (c.is_stable recent sf th = true ↔
        ∀ j, j < sf - 1 →
          c.calculate_diff ((recent.drop (recent.length - sf)).getD j defaultImage)
            ((recent.drop (recent.length - sf)).getD (j + 1) defaultImage) ≤ th)) := by
  constructor
  · intro h
    simp [ImageDiffChecker.is_stable, h]
  · intro h
    rw [ImageDiffChecker.is_stable, if_neg (by omega)]
    simp only [List.all_eq_true, List.mem_range'_1, Bool.not_eq_true',
      decide_eq_false_iff_not, not_lt, getD_drop]
    constructor
    · intro hall j hj
      have hx := hall (recent.length - sf + 1 + j) ⟨by omega, by omega⟩
      have e1 : recent.length - sf + 1 + j - 1 = recent.length - sf + j := by omega
      have e2 : recent.length - sf + (j + 1) = recent.length - sf + 1 + j := by omega
      rw [e1] at hx
      rw [e2]
      exact hx
    · intro hall i hi
      obtain ⟨hi1, hi2⟩ := hi
      have hx := hall (i - (recent.length - sf + 1)) (by omega)
      have e1 : recent.length - sf + (i - (recent.length - sf + 1)) = i - 1 := by omega
      have e2 : recent.length - sf + (i - (recent.length - sf + 1) + 1) = i := by omega
      rw [e1, e2] at hx
      exact hx

/-- Witness for C3: a full window of identical frames is stable; a window
shorter than `stable_frames` is not. -/
theorem is_stable_characterization_witness :
    ImageDiffChecker.default.is_stable
      [Image.valid [0], Image.valid [0], Image.valid [0]] 3 (1 / 20) = true
  ∧ ImageDiffChecker.default.is_stable [Image.valid [0]] 3 (1 / 20) = false :=
  ⟨((is_stable_characterization ImageDiffChecker.default
      [Image.valid [0], Image.valid [0], Image.valid [0]] 3 (1 / 20)).2 (by norm_num)).mpr
      (by with_unfolding_all decide),
   (is_stable_characterization ImageDiffChecker.default
      [Image.valid [0]] 3 (1 / 20)).1 (by norm_num)⟩

/-- Helper: the result component of `run_with_assertion` as a function of
the watch outcome alone (the agent thread's captured result never feeds into
it). -/
theorem run_with_assertion_fst (r : AssertionRunner) (prompt : String)
    (assertions : List AssertionSpec) (timeout : ℚ) (ticks : List (Except String Image)) :
    (r.run_with_assertion prompt assertions timeout ticks).1 =
      match (r.watcher.watch (normalizeAssertions assertions timeout) timeout ticks).1 with
      | Except.ok (true, message) =>
          { success := true, message := message.getD ("断言通过"), screenshot_path := none }
      | Except.ok (false, _) =>
          { success := false, message := "断言超时未命中",
            screenshot_path := r.save_screenshot_func }
      | Except.error e =>
          { success := false, message := "断言执行异常: " ++ e,
            screenshot_path := r.save_screenshot_func } := by
  have hw : (r.startAgent prompt).watcher = r.watcher := by
    unfold AssertionRunner.startAgent
    cases r.agent_run prompt <;> rfl
  have hs : (r.startAgent prompt).save_screenshot_func = r.save_screenshot_func := by
    unfold AssertionRunner.startAgent
    cases r.agent_run prompt <;> rfl
  simp only [AssertionRunner.run_with_assertion, hw, hs]
  cases hW : r.watcher.watch (normalizeAssertions assertions timeout) timeout ticks with
  | mk res w2 =>
      cases res with
      | error e => rfl
      | ok val =>
          obtain ⟨b, m⟩ := val
          cases b <;> rfl

/-- C2 counterexample: the claim says every `watch` invocation starts with a
cleared window and no previous frame, so a watcher carrying a leftover
window from an earlier invocation would have to behave exactly like the
freshly constructed watcher (empty window, no previous frame).  The two runs
below differ in their hit flag on the same tick sequence: the leftover
two-frame window makes the third identical frame stable and the
`text_not_exists` assertion hit, while the fresh watcher times out. -/
theorem watch_state_cleared_cex :
    ((AssertionWatcher.watch
        { mkWatcher none none (1 / 2) 3 (1 / 20) with
          recent_screenshots := [Image.valid [0], Image.valid [0]]
          last_screenshot := some (Image.valid [0]) }
        [{ type := "text_not_exists", value := "余额", timeout := 10 }] 10
        [Except.ok (Image.valid [0])]).1.map Prod.fst)
  ≠ ((AssertionWatcher.watch (mkWatcher none none (1 / 2) 3 (1 / 20))
        [{ type := "text_not_exists", value := "余额", timeout := 10 }] 10
        [Except.ok (Image.valid [0])]).1.map Prod.fst) := by
  with_unfolding_all decide

/-- C2 (amended): `watch` clears neither the rolling window nor the
"previous frame" reference at the start of an invocation — it only sets the
running flag (and records the start time); both fields persist across
invocations, so a second `watch` on the same watcher starts from whatever
window and previous frame the first call left behind.  With a nonpositive
time budget the loop body never runs and the entry state passes through
untouched apart from the running flag. -/
theorem watch_clears_nothing (w : AssertionWatcher) (assertions : List Assertion)
    (T : ℚ) (ticks : List (Except String Image)) (hT : T ≤ 0) :
    w.watch assertions T ticks = (Except.ok (false, none), { w with running := false }) := by
  cases ticks with
  | nil => rfl
  | cons tick rest =>
      have hc : ¬ (({ w with running := true } : AssertionWatcher).running = true ∧
          ((0 : Nat) : ℚ) * ({ w with running := true } : AssertionWatcher).poll_interval < T) := by
        rintro ⟨-, hlt⟩
        rw [Nat.cast_zero, zero_mul] at hlt
        exact absurd hlt (not_lt.mpr hT)
      cases tick with
      | error e => rw [AssertionWatcher.watch, AssertionWatcher.watchLoop, if_neg hc]
      | ok cur => rw [AssertionWatcher.watch, AssertionWatcher.watchLoop, if_neg hc]

/-- Witness for C2 (amended): a watcher whose leftover window and previous
frame survive the start of a new `watch` call. -/
theorem watch_clears_nothing_witness :
    AssertionWatcher.watch
      { mkWatcher none none (1 / 2) 3 (1 / 20) with
        recent_screenshots := [Image.valid [7]]
        last_screenshot := some (Image.valid [7]) }
      [] 0 [Except.ok (Image.valid [7])]
    = (Except.ok (false, none),
       { mkWatcher none none (1 / 2) 3 (1 / 20) with
         recent_screenshots := [Image.valid [7]]
         last_screenshot := some (Image.valid [7])
         running := false }) :=
  watch_clears_nothing
    { mkWatcher none none (1 / 2) 3 (1 / 20) with
      recent_screenshots := [Image.valid [7]]
      last_screenshot := some (Image.valid [7]) }
    [] 0 [Except.ok (Image.valid [7])] (le_refl 0)

/-- Helper: a capture error on the current tick propagates out of `watch`,
leaving the state (running flag included) as it was at that point. -/
theorem watch_error_tick (w : AssertionWatcher) (assertions : List Assertion)
    (T : ℚ) (e : String) (rest : List (Except String Image)) (hT : 0 < T) :
    w.watch assertions T (Except.error e :: rest)
      = (Except.error e, { w with running := true }) := by
  rw [AssertionWatcher.watch, AssertionWatcher.watchLoop,
    if_pos ⟨rfl, by rw [Nat.cast_zero, zero_mul]; exact hT⟩]

/-- C1 counterexample: the claim says a tick on which the capture function
raises is skipped and polling continues (so `watch` itself never ends with
the capture exception).  Here the capture raises on the first tick while
three further good captures are still pending; `watch` nevertheless returns
the capture error immediately — the tick is not skipped and the loop does
not continue. -/
theorem watch_capture_error_cex :
    (AssertionWatcher.watch (mkWatcher none none (1 / 2) 3 (1 / 20))
      [{ type := "text_exists", value := "完成", timeout := 10 }] 10
      [Except.error ("screenshot failed"), Except.ok (Image.valid [0]),
       Except.ok (Image.valid [0]), Except.ok (Image.valid [0])]).1
    = Except.error ("screenshot failed") := by
  with_unfolding_all decide

/-- C1 (amended): a capture exception aborts the watch loop itself — `watch`
propagates it at once (no tick is skipped, no further polling happens, the
running flag is left set); the exception is then caught one level up by
`run_with_assertion`, which converts it into a failed result carrying the
exception message and the failure-artifact path. -/
theorem watch_capture_error_behavior (w : AssertionWatcher) (assertions : List Assertion)
    (r : AssertionRunner) (prompt : String) (specs : List AssertionSpec)
    (T : ℚ) (e : String) (rest : List (Except String Image)) (hT : 0 < T) :
    w.watch assertions T (Except.error e :: rest)
      = (Except.error e, { w with running := true })
  ∧ (r.run_with_assertion prompt specs T (Except.error e :: rest)).1
      = { success := false, message := "断言执行异常: " ++ e,
          screenshot_path := r.save_screenshot_func } := by
  refine ⟨watch_error_tick w assertions T e rest hT, ?_⟩
  rw [run_with_assertion_fst,
    watch_error_tick r.watcher (normalizeAssertions specs T) T e rest hT]

/-- Witness for C1 (amended) at a concrete watcher and runner. -/
theorem watch_capture_error_behavior_witness :
    AssertionWatcher.watch (mkWatcher none none (1 / 2) 3 (1 / 20)) [] 10
      [Except.error ("boom")]
      = (Except.error ("boom"), { mkWatcher none none (1 / 2) 3 (1 / 20) with running := true })
  ∧ ((mkRunner (fun _ => Except.error ("agent crashed")) (some ("artifact.png"))).run_with_assertion
        ("检查页面") [] 10 [Except.error ("boom")]).1
      = { success := false, message := "断言执行异常: " ++ "boom",
          screenshot_path := some ("artifact.png") } :=
  watch_capture_error_behavior (mkWatcher none none (1 / 2) 3 (1 / 20)) []
    (mkRunner (fun _ => Except.error ("agent crashed")) (some ("artifact.png")))
    ("检查页面") [] 10 ("boom") [] (by norm_num)

/-- C4: `run_with_assertion` always yields an `AssertionResult` (the model
returns one on every path; the `except` branch converts any exception raised
while polling); its success flag is true exactly when the watch reported a
hit; whenever the watch did not report a hit (timeout or a propagated
exception) the result is failed and the failure-artifact path of the
configured save collaborator is attached; and the result is entirely
independent of the action task's own outcome. -/
theorem runner_outcome (r : AssertionRunner) (prompt : String)
    (specs : List AssertionSpec) (T : ℚ) (ticks : List (Except String Image)) :
    ((r.run_with_assertion prompt specs T ticks).1.success = true
      ↔ ∃ m, (r.watcher.watch (normalizeAssertions specs T) T ticks).1 = Except.ok (true, m))
  ∧ ((∀ m, (r.watcher.watch (normalizeAssertions specs T) T ticks).1 ≠ Except.ok (true, m)) →
        (r.run_with_assertion prompt specs T ticks).1.success = false
      ∧ (r.run_with_assertion prompt specs T ticks).1.screenshot_path
          = r.save_screenshot_func)
  ∧ (∀ g : String → Except String String,
      (({ r with agent_run := g } : AssertionRunner).run_with_assertion prompt specs T ticks).1
        = (r.run_with_assertion prompt specs T ticks).1) := by
  refine ⟨?_, ?_, ?_⟩
  · rw [run_with_assertion_fst]
    cases hres : (r.watcher.watch (normalizeAssertions specs T) T ticks).1 with
    | error e => simp
    | ok val =>
        obtain ⟨b, m⟩ := val
        cases b <;> simp
  · intro hno
    rw [run_with_assertion_fst]
    cases hres : (r.watcher.watch (normalizeAssertions specs T) T ticks).1 with
    | error e => exact ⟨rfl, rfl⟩
    | ok val =>
        obtain ⟨b, m⟩ := val
        cases b with
        | false => exact ⟨rfl, rfl⟩
        | true => exact absurd hres (hno m)
  · intro g
    rw [run_with_assertion_fst, run_with_assertion_fst]

/-- Witness for C4: a runner whose watch times out (no ticks) returns a
failed result with the configured artifact path attached. -/
theorem runner_outcome_witness :
    ((mkRunner (fun _ => Except.ok ("done")) (some ("fail.png"))).run_with_assertion
        ("点击登录") [{ type := "text_exists", value := "我的订单", timeout := some 5 }]
        1 []).1.success = false
  ∧ ((mkRunner (fun _ => Except.ok ("done")) (some ("fail.png"))).run_with_assertion
        ("点击登录") [{ type := "text_exists", value := "我的订单", timeout := some 5 }]
        1 []).1.screenshot_path = some ("fail.png") :=
  (runner_outcome (mkRunner (fun _ => Except.ok ("done")) (some ("fail.png"))) ("点击登录")
      [{ type := "text_exists", value := "我的订单", timeout := some 5 }] 1 []).2.1
    (by intro m; simp [AssertionWatcher.watch, AssertionWatcher.watchLoop])

end Proofs
